import Mathlib

/-!
# Verification of the YouTube video cutter service (`src/main.py`)

A shallow embedding of the single-file FastAPI service.  The service exposes
one POST endpoint, `cut_video`, that parses a pair of timestamps, downloads a
remote video through an external fetch utility (`yt_dlp`, with a fixed list of
browser-cookie fallback attempts), clips it with an external transcoder
(`ffmpeg`), and returns the clipped bytes.

Pure Python fragments are translated to Lean functions.  External
collaborators (the fetch utility, the transcoder, the directory listing) are
modelled by an `Oracle` supplying their outcomes; the handler itself is a
function of the request and the oracle.  Python floats are modelled as exact
rationals (`ℚ`); binary rounding is not modelled, which is exact for every
value appearing in the specification's examples.  Exceptions are modelled by
`Except` with an error type distinguishing `HTTPException` from other Python
exceptions, because the handler's outer `except Exception` clause treats them
identically (it rewraps every exception, `HTTPException` included, as a
status-500 `HTTPException`).
-/

namespace VideoCutter

/-- Python `str.split(':')` on the underlying character list: splits at every
separator, keeping empty chunks, so the result is always nonempty. -/
def splitCharAux (sep : Char) : List Char → List Char → List (List Char)
  | [], acc => [acc.reverse]
  | c :: rest, acc =>
      if c = sep then acc.reverse :: splitCharAux sep rest []
      else splitCharAux sep rest (c :: acc)

/-- `time_str.split(':')` from `time_to_seconds` (src/main.py line 33). -/
def splitColon (s : String) : List String :=
  (splitCharAux ':' s.data []).map String.mk

/-- Value of a list of decimal digit characters, most significant first. -/
def digitsVal (l : List Char) : ℕ :=
  l.foldl (fun a c => a * 10 + (c.toNat - 48)) 0

/-- Unsigned part of CPython `float(s)` on a plain decimal literal:
digits with an optional `.` and fractional digits (`"1."` and `".5"` are
accepted, `"."` and `""` are not).  Returns `none` where `float` raises
`ValueError`. -/
def parseUnsigned? (l : List Char) : Option ℚ :=
  let intPart := l.takeWhile (fun c => c.isDigit)
  let rest := l.dropWhile (fun c => c.isDigit)
  match rest with
  | [] => if intPart.isEmpty then none else some (digitsVal intPart : ℚ)
  | '.' :: frac =>
      if frac.all (fun c => c.isDigit) && !(intPart.isEmpty && frac.isEmpty) then
        some ((digitsVal intPart : ℚ) + (digitsVal frac : ℚ) / (10 : ℚ) ^ frac.length)
      else none
  | _ => none

/-- CPython's builtin `float(s)` as used by `time_to_seconds`: an optional
sign followed by a plain decimal literal, the value taken as an exact
rational.  (Whitespace, underscores, exponents and `inf`/`nan` forms, which
never denote valid timestamps, are not modelled and yield `none`.) -/
def parseFloat? (s : String) : Option ℚ :=
  match s.data with
  | '-' :: rest => (parseUnsigned? rest).map (fun q => -q)
  | '+' :: rest => parseUnsigned? rest
  | l => parseUnsigned? l

/-- `time_to_seconds` (src/main.py lines 31-41).  Splits on `':'`; three
parts are combined as `h*3600 + m*60 + s`, two parts as `m*60 + s`, and any
other part count (one part, or four and more) falls into the `else` branch,
which converts and returns only the first part.  `none` models the
`ValueError` that `float` raises on a non-numeric part. -/
def time_to_seconds (time_str : String) : Option ℚ :=
  match splitColon time_str with
  | [h, m, s] => do
      let hours ← parseFloat? h
      let minutes ← parseFloat? m
      let seconds ← parseFloat? s
      pure (hours * 3600 + minutes * 60 + seconds)
  | [m, s] => do
      let minutes ← parseFloat? m
      let seconds ← parseFloat? s
      pure (minutes * 60 + seconds)
  | p :: _ => parseFloat? p
  | [] => none

/-- Python `"pat" in s` substring test, on character lists. -/
def hasSubstr (pat : List Char) : List Char → Bool
  | [] => pat.isEmpty
  | c :: rest => pat.isPrefixOf (c :: rest) || hasSubstr pat rest

/-- Python `pat in s` on strings (`"Sign in to confirm" in str(e)`). -/
def containsSub (s pat : String) : Bool :=
  hasSubstr pat.data s.data

/-- The character filter of line 155: `c.isalnum() or c in (' ', '-', '_')`.
(`isalnum` is modelled on its ASCII fragment.) -/
def keepChar (c : Char) : Bool :=
  c.isAlphanum || c = ' ' || c = '-' || c = '_'

/-- Python `str.rstrip()`: remove trailing whitespace. -/
def rstrip (s : String) : String :=
  String.mk (s.data.reverse.dropWhile (fun c => c.isWhitespace)).reverse

/-- Lines 155-156: keep only alphanumerics, spaces, hyphens and underscores,
strip trailing whitespace, truncate to the first 50 characters. -/
def sanitize_title (video_title : String) : String :=
  let safe := rstrip (String.mk (video_title.data.filter keepChar))
  String.mk (safe.data.take 50)

/-- Fractional decimal digits of `0 ≤ q < 1`, at most `fuel` of them. -/
def fracDigits : ℕ → ℚ → List Char
  | 0, _ => []
  | n + 1, q =>
      if q = 0 then []
      else
        let q10 := q * 10
        Char.ofNat (48 + (⌊q10⌋).toNat) :: fracDigits n (q10 - ⌊q10⌋)

/-- Rendering of a Python float by an f-string (`f"...{start_time}s..."`),
modelled from CPython `repr(float)` for values with a short exact decimal
expansion: integral values render as `"n.0"`, others with their fractional
digits (at most 17, CPython's repr precision). -/
def pyFloatRepr (q : ℚ) : String :=
  let sign := if q < 0 then "-" else ""
  let a := |q|
  let ds := fracDigits 17 (a - ⌊a⌋)
  sign ++ Nat.repr (⌊a⌋).toNat ++ "." ++ (if ds.isEmpty then "0" else String.mk ds)

/-- Line 157: `f"cut_{safe_title}_{start_time}s-{end_time}s.mp4"`. -/
def mkFilename (video_title : String) (start_time end_time : ℚ) : String :=
  "cut_" ++ sanitize_title video_title ++ "_" ++ pyFloatRepr start_time ++ "s-" ++
    pyFloatRepr end_time ++ "s.mp4"

/-- A Python exception escaping some statement of the handler body.
`httpExc` is FastAPI's `HTTPException` (a subclass of `Exception`); the other
constructors are the non-HTTP exceptions the body can raise: `ValueError`
from `float`, `ffmpeg.Error` from the transcoder, `OSError` from `open`. -/
inductive PyErr where
  | httpExc (status : ℕ) (detail : String)
  | valueError (msg : String)
  | ffmpegError (msg : String)
  | osError (msg : String)
deriving Repr, DecidableEq

/-- Python `str(e)` on the modelled exceptions (Starlette's `HTTPException`
renders as `"<status>: <detail>"`). -/
def pyStr : PyErr → String
  | .httpExc status detail => Nat.repr status ++ ": " ++ detail
  | .valueError msg => msg
  | .ffmpegError msg => msg
  | .osError msg => msg

/-- The request body (`VideoRequest` model, src/main.py lines 27-29). -/
structure VideoRequest where
  youtube_url : String
  timeCode : List String
deriving Repr, DecidableEq

/-- The successful response (lines 175-181): a buffered binary payload with
media type `video/mp4` and a `Content-Disposition` header. -/
structure StreamingResponse where
  media_type : String
  contentDisposition : String
  data : List ℕ
deriving Repr, DecidableEq

/-- One invocation of the external transcoder (lines 162-168):
`ffmpeg.input(input_file, ss=start_time, t=duration)
  .output(output_file, vcodec='libx264', acodec='aac')`. -/
structure TranscodeCall where
  input : String
  ss : ℚ
  t : ℚ
  output : String
  vcodec : String
  acodec : String
deriving Repr, DecidableEq

/-- A fetch attempt made by the handler: the initial `yt_dlp` call with
Chrome cookies (lines 85-98), or the fallback attempt at index `i` of
`browsers_to_try` (lines 103-137). -/
inductive Attempt where
  | initial
  | fb (i : ℕ)
deriving Repr, DecidableEq

/-- Observable actions of one request: which fetch attempts ran, in order,
and which transcoder invocations were made. -/
structure Trace where
  fetchAttempts : List Attempt
  transcodeCalls : List TranscodeCall
deriving Repr, DecidableEq

/-- Result of running the handler once: the outcome, the trace of external
calls, and the files remaining in the request's scratch directory. -/
structure RunState where
  result : Except PyErr StreamingResponse
  trace : Trace
  scratch : List String
deriving Repr

/-- Outcome of the initial `yt_dlp` extract+download attempt (lines 85-99):
full success with the extracted title; metadata with an empty format list
(line 92); a raised `yt_dlp.DownloadError`; or any other exception during
extraction. -/
inductive FirstFetch where
  | ok (title : String)
  | noFormats (title : String)
  | downloadErr (msg : String)
  | extractErr (msg : String)
deriving Repr, DecidableEq

/-- Behaviour of the external collaborators for one request: the outcome of
the initial fetch, the outcome of each fallback attempt (`some title` on
success), the directory listing after the download section, the transcoder's
exit status, and the bytes of the output file if it exists. -/
structure Oracle where
  first : FirstFetch
  fallback : ℕ → Option String
  listedFiles : List String
  transcodeOk : Bool
  outputData : Option (List ℕ)

/-- `browsers_to_try` (lines 103-108): cookie source and display name of each
fallback attempt, in the hand-written order. -/
def browsers_to_try : List (Option String × String) :=
  [(some "firefox", "Firefox"), (some "edge", "Edge"), (some "safari", "Safari"),
    (none, "Sans cookies")]

/-- The `for browser, browser_name in browsers_to_try` loop (lines 111-137)
over the attempt indices: each failed attempt (`except: continue`) moves to
the next; the first success breaks out of the loop.  Returns the extracted
title on success together with the list of indices actually attempted. -/
def fallbackLoop (o : Oracle) : List ℕ → Option String × List ℕ
  | [] => (none, [])
  | i :: rest =>
      match o.fallback i with
      | some title => (some title, [i])
      | none =>
          let r := fallbackLoop o rest
          (r.1, i :: r.2)

/-- The download section (lines 85-144): the initial attempt, the
`except yt_dlp.DownloadError` handler that runs the browser-cookie fallbacks
only when the message contains `"Sign in to confirm"` or `"bot"`, and the
`except Exception` handler.  The `HTTPException` raised for an empty format
list is caught by that same `except Exception` clause and re-raised with the
extraction-error detail.  Returns the video title on success, plus the fetch
attempts made, in order. -/
def downloadStage (o : Oracle) : Except PyErr String × List Attempt :=
  match o.first with
  | .ok title => (.ok title, [.initial])
  | .noFormats _ =>
      (.error (.httpExc 400 ("Erreur lors de l\x27extraction des infos: " ++
          pyStr (.httpExc 400 "Aucun format vidéo disponible pour cette URL"))), [.initial])
  | .downloadErr msg =>
      if containsSub msg "Sign in to confirm" || containsSub msg "bot" then
        match fallbackLoop o (List.range browsers_to_try.length) with
        | (some title, tried) => (.ok title, .initial :: tried.map .fb)
        | (none, tried) =>
            (.error (.httpExc 400 ("Cette vidéo nécessite une authentification ou " ++
                "n\x27est pas accessible. Essayez avec une autre vidéo publique.")),
              .initial :: tried.map .fb)
      else
        (.error (.httpExc 400 ("Erreur de téléchargement YouTube: " ++ msg)), [.initial])
  | .extractErr msg =>
      (.error (.httpExc 400 ("Erreur lors de l\x27extraction des infos: " ++ msg)), [.initial])

/-- Does a file name carry one of the video extensions of line 147? -/
def isVideoFile (f : String) : Bool :=
  ".mp4".data.isSuffixOf f.data || ".webm".data.isSuffixOf f.data ||
    ".mkv".data.isSuffixOf f.data

/-- The body of the `with tempfile.TemporaryDirectory()` block after
timestamp validation (lines 84-181): download, locate the downloaded file,
transcode, read the output into memory, build the response. -/
def cut_video_tempdir (start_time end_time : ℚ) (o : Oracle) : RunState :=
  let dl := downloadStage o
  match dl.1 with
  | .error e =>
      { result := .error e, trace := { fetchAttempts := dl.2, transcodeCalls := [] },
        scratch := o.listedFiles }
  | .ok video_title =>
      match o.listedFiles.filter isVideoFile with
      | [] =>
          { result := .error (.httpExc 500 "Échec du téléchargement de la vidéo"),
            trace := { fetchAttempts := dl.2, transcodeCalls := [] },
            scratch := o.listedFiles }
      | input_file :: _ =>
          let output_file := "cut_" ++ video_title ++ ".mp4"
          let call : TranscodeCall :=
            { input := input_file, ss := start_time, t := end_time - start_time,
              output := output_file, vcodec := "libx264", acodec := "aac" }
          if o.transcodeOk then
            match o.outputData with
            | none =>
                { result := .error (.osError ("No such file or directory: " ++ output_file)),
                  trace := { fetchAttempts := dl.2, transcodeCalls := [call] },
                  scratch := o.listedFiles }
            | some video_data =>
                { result := .ok
                    { media_type := "video/mp4",
                      contentDisposition := "attachment; filename=" ++
                        mkFilename video_title start_time end_time,
                      data := video_data },
                  trace := { fetchAttempts := dl.2, transcodeCalls := [call] },
                  scratch := o.listedFiles ++ [output_file] }
          else
            { result := .error (.ffmpegError "ffmpeg error (see stderr output for detail)"),
              trace := { fetchAttempts := dl.2, transcodeCalls := [call] },
              scratch := o.listedFiles }

/-- Semantics of `with tempfile.TemporaryDirectory() as temp_dir:` (line 83):
the context manager's exit handler deletes the directory and everything in it
before the result — normal return or exception — propagates. -/
def withTempDir (body : RunState) : RunState :=
  { body with scratch := [] }

/-- The trace of a request that made no external calls. -/
def emptyTrace : Trace :=
  { fetchAttempts := [], transcodeCalls := [] }

/-- The `try` body of the handler (lines 49-181): validate the timestamp
pair (count, parse, ordering), then run the temporary-directory block. -/
def cut_video_core (req : VideoRequest) (o : Oracle) : RunState :=
  if req.timeCode.length ≠ 2 then
    { result := .error (.httpExc 400 "timeCode doit contenir exactement 2 timestamps [start, end]"),
      trace := emptyTrace, scratch := [] }
  else
    match time_to_seconds (req.timeCode.headD "") with
    | none =>
        { result := .error (.valueError ("could not convert string to float: " ++
            req.timeCode.headD "")), trace := emptyTrace, scratch := [] }
    | some start_time =>
        match time_to_seconds (req.timeCode.getD 1 "") with
        | none =>
            { result := .error (.valueError ("could not convert string to float: " ++
                req.timeCode.getD 1 "")), trace := emptyTrace, scratch := [] }
        | some end_time =>
            if start_time ≥ end_time then
              { result := .error
                  (.httpExc 400 "Le timestamp de début doit être inférieur au timestamp de fin"),
                trace := emptyTrace, scratch := [] }
            else
              withTempDir (cut_video_tempdir start_time end_time o)

/-- The whole `cut_video` handler (lines 43-184): the `try` body wrapped in
`except Exception as e: raise HTTPException(status_code=500, ...)`, which
catches every exception — the handler's own 400 `HTTPException`s included —
and rewraps it as a status-500 `HTTPException`. -/
def cut_video (req : VideoRequest) (o : Oracle) : RunState :=
  let r := cut_video_core req o
  match r.result with
  | .ok resp => { r with result := .ok resp }
  | .error e =>
      { r with result := .error (.httpExc 500 ("Erreur lors du traitement: " ++ pyStr e)) }

/-! ## Claim C1: positional value of valid timestamps -/

/-- C1: for every valid timestamp string, `time_to_seconds` returns the
positional value: a three-part string `H:MM:SS` yields `H*3600 + MM*60 + SS`,
a two-part string `MM:SS` yields `MM*60 + SS`, and a single-part string `SS`
yields `SS` itself, each part converted by `float`. -/
theorem spec_c1 (t : String) :
    (∀ hp mp sp H M S, splitColon t = [hp, mp, sp] →
      parseFloat? hp = some H → parseFloat? mp = some M → parseFloat? sp = some S →
      time_to_seconds t = some (H * 3600 + M * 60 + S)) ∧
    (∀ mp sp M S, splitColon t = [mp, sp] →
      parseFloat? mp = some M → parseFloat? sp = some S →
      time_to_seconds t = some (M * 60 + S)) ∧
    (∀ p S, splitColon t = [p] → parseFloat? p = some S → time_to_seconds t = some S) := by
  refine ⟨?_, ?_, ?_⟩ <;> intros <;> simp_all [time_to_seconds]

/-- Witness for C1 at the specification's three examples. -/
theorem spec_c1_witness :
    time_to_seconds "01:02:03" = some 3723 ∧ time_to_seconds "02:30" = some 150 ∧
      time_to_seconds "45" = some 45 := by
  refine ⟨?_, ?_, ?_⟩
  · have h := (spec_c1 "01:02:03").1 "01" "02" "03" 1 2 3 (by decide) (by decide)
      (by decide) (by decide)
    norm_num at h
    exact h
  · have h := (spec_c1 "02:30").2.1 "02" "30" 2 30 (by decide) (by decide) (by decide)
    norm_num at h
    exact h
  · exact (spec_c1 "45").2.2 "45" 45 (by decide) (by decide)

/-! ## Claim C3: rejection of malformed timestamps -/

/-- C3 counterexample: the claim says a string with four or more
colon-separated parts is rejected, but `time_to_seconds` sends every part
count other than 2 and 3 into the `else` branch, which converts only the
first part — so the four-part string `"1:2:3:4"` yields the value `1.0`
instead of failing. -/
theorem spec_c3_counterexample :
    (splitColon "1:2:3:4").length = 4 ∧ time_to_seconds "1:2:3:4" = some 1 := by
  constructor
  · decide
  · have hs : splitColon "1:2:3:4" = ["1", "2", "3", "4"] := by decide
    simp [time_to_seconds, hs]
    decide

/-- C3 (amended): the parser fails exactly where `float` fails on a part it
converts: with two or three parts every part is converted and any
non-numeric part makes the whole call fail, while with any other part count
(one, or four and more) only the first part is converted and its value is
returned — so a four-or-more-part string with a numeric first part yields a
value rather than being rejected. -/
theorem spec_c3_amended (t : String) :
    (∀ a b, splitColon t = [a, b] →
      parseFloat? a = none ∨ parseFloat? b = none → time_to_seconds t = none) ∧
    (∀ a b c, splitColon t = [a, b, c] →
      parseFloat? a = none ∨ parseFloat? b = none ∨ parseFloat? c = none →
      time_to_seconds t = none) ∧
    (∀ a rest, splitColon t = a :: rest → rest.length ≠ 1 → rest.length ≠ 2 →
      time_to_seconds t = parseFloat? a) := by
  refine ⟨?_, ?_, ?_⟩
  · intro a b hs hab
    rcases hab with h | h
    · simp [time_to_seconds, hs, h]
    · cases hpa : parseFloat? a <;> simp [time_to_seconds, hs, hpa, h]
  · intro a b c hs habc
    rcases habc with h | h | h
    · simp [time_to_seconds, hs, h]
    · cases hpa : parseFloat? a <;> simp [time_to_seconds, hs, hpa, h]
    · cases hpa : parseFloat? a <;> cases hpb : parseFloat? b <;>
        simp [time_to_seconds, hs, hpa, hpb, h]
  · intro a rest hs h1 h2
    rcases rest with _ | ⟨b, _ | ⟨c, _ | ⟨d, rest⟩⟩⟩
    · simp [time_to_seconds, hs]
    · simp at h1
    · simp at h2
    · simp [time_to_seconds, hs]

/-- Witness for the amended C3: a non-numeric part in a two-part string
fails, while a numeric-first four-part string returns the first part. -/
theorem spec_c3_witness :
    time_to_seconds "x:5" = none ∧ time_to_seconds "1:2:3:4" = parseFloat? "1" := by
  constructor
  · exact (spec_c3_amended "x:5").1 "x" "5" (by decide) (Or.inl (by decide))
  · exact (spec_c3_amended "1:2:3:4").2.2 "1" ["2", "3", "4"] (by decide) (by decide) (by decide)

/-! ## Evaluation lemmas for the handler -/

/-- Concrete parser evaluation used by several witnesses. -/
theorem tsEval10 : time_to_seconds "00:00:10" = some 10 := by
  have hs : splitColon "00:00:10" = ["00", "00", "10"] := by decide
  have h0 : parseFloat? "00" = some 0 := by decide
  have h10 : parseFloat? "10" = some 10 := by decide
  simp [time_to_seconds, hs, h0, h10]

/-- Concrete parser evaluation used by several witnesses. -/
theorem tsEval20 : time_to_seconds "00:00:20" = some 20 := by
  have hs : splitColon "00:00:20" = ["00", "00", "20"] := by decide
  have h0 : parseFloat? "00" = some 0 := by decide
  have h20 : parseFloat? "20" = some 20 := by decide
  simp [time_to_seconds, hs, h0, h20]

/-- The outer `except Exception` wrapper on the error path: trace and
scratch pass through, the error is rewrapped with status 500. -/
theorem cut_video_wrapErr (req : VideoRequest) (o : Oracle) (e : PyErr)
    (h : (cut_video_core req o).result = .error e) :
    cut_video req o =
      { result := .error (.httpExc 500 ("Erreur lors du traitement: " ++ pyStr e)),
        trace := (cut_video_core req o).trace, scratch := (cut_video_core req o).scratch } := by
  simp [cut_video, h]

/-- The outer wrapper on the success path: the run state passes through. -/
theorem cut_video_wrapOk (req : VideoRequest) (o : Oracle) (resp : StreamingResponse)
    (h : (cut_video_core req o).result = .ok resp) :
    cut_video req o = cut_video_core req o := by
  simp [cut_video, h]
  rw [← h]

/-- Validation: a parsed pair with start ≥ end stops the body at line 56. -/
theorem cut_video_core_ge (req : VideoRequest) (o : Oracle) (st en : ℚ)
    (h2 : req.timeCode.length = 2)
    (hst : time_to_seconds (req.timeCode.headD "") = some st)
    (hen : time_to_seconds (req.timeCode.getD 1 "") = some en)
    (hge : en ≤ st) :
    cut_video_core req o =
      { result := .error
          (.httpExc 400 "Le timestamp de début doit être inférieur au timestamp de fin"),
        trace := emptyTrace, scratch := [] } := by
  unfold cut_video_core
  rw [if_neg (by simp [h2]), hst, hen]
  simp [hge]

/-- Validation passed: the body is the temporary-directory block. -/
theorem cut_video_core_valid (req : VideoRequest) (o : Oracle) (st en : ℚ)
    (h2 : req.timeCode.length = 2)
    (hst : time_to_seconds (req.timeCode.headD "") = some st)
    (hen : time_to_seconds (req.timeCode.getD 1 "") = some en)
    (hlt : st < en) :
    cut_video_core req o = withTempDir (cut_video_tempdir st en o) := by
  unfold cut_video_core
  rw [if_neg (by simp [h2]), hst, hen]
  simp [not_le.2 hlt]

/-- A fallback run over attempts that all fail tries every one, in order. -/
theorem fallbackLoop_allFail (o : Oracle) (l : List ℕ)
    (h : ∀ i ∈ l, o.fallback i = none) :
    fallbackLoop o l = (none, l) := by
  induction l with
  | nil => rfl
  | cons i rest ih =>
      simp [fallbackLoop, h i (by simp), ih (fun j hj => h j (by simp [hj]))]

/-- A fallback run stops at the first attempt that succeeds. -/
theorem fallbackLoop_firstSuccess (o : Oracle) (l1 l2 : List ℕ) (k : ℕ) (title : String)
    (hfail : ∀ i ∈ l1, o.fallback i = none) (hk : o.fallback k = some title) :
    fallbackLoop o (l1 ++ k :: l2) = (some title, l1 ++ [k]) := by
  induction l1 with
  | nil => simp [fallbackLoop, hk]
  | cons i rest ih =>
      simp [fallbackLoop, hfail i (by simp), ih (fun j hj => hfail j (by simp [hj]))]

/-- Download section when the first attempt fails with a message that does
not trigger the cookie fallbacks: a single attempt, immediate error. -/
theorem downloadStage_noFallback (o : Oracle) (msg : String)
    (hf : o.first = .downloadErr msg)
    (h1 : containsSub msg "Sign in to confirm" = false)
    (h2 : containsSub msg "bot" = false) :
    downloadStage o =
      (.error (.httpExc 400 ("Erreur de téléchargement YouTube: " ++ msg)), [.initial]) := by
  simp [downloadStage, hf, h1, h2]

/-- Download section when the fallbacks run and all of them fail. -/
theorem downloadStage_allFail (o : Oracle) (msg : String)
    (hf : o.first = .downloadErr msg)
    (hsub : (containsSub msg "Sign in to confirm" || containsSub msg "bot") = true)
    (hall : ∀ i, i < 4 → o.fallback i = none) :
    downloadStage o =
      (.error (.httpExc 400 ("Cette vidéo nécessite une authentification ou " ++
          "n\x27est pas accessible. Essayez avec une autre vidéo publique.")),
        [.initial, .fb 0, .fb 1, .fb 2, .fb 3]) := by
  have hrange : fallbackLoop o (List.range 4) = (none, List.range 4) :=
    fallbackLoop_allFail o _ (fun i hi => hall i (by simpa using hi))
  simp [downloadStage, hf, hsub, browsers_to_try, hrange]
  decide

/-- Download section when the fallbacks run and attempt `k` is the first to
succeed: exactly the attempts up to and including `k` are made. -/
theorem downloadStage_firstSuccess (o : Oracle) (msg : String) (k : ℕ) (title : String)
    (hf : o.first = .downloadErr msg)
    (hsub : (containsSub msg "Sign in to confirm" || containsSub msg "bot") = true)
    (hk4 : k < 4) (hk : o.fallback k = some title)
    (hfail : ∀ i, i < k → o.fallback i = none) :
    downloadStage o = (.ok title, .initial :: ((List.range (k + 1)).map .fb)) := by
  have hsplit : List.range 4 = List.range k ++ k :: List.drop (k + 1) (List.range 4) := by
    interval_cases k <;> decide
  have hloop : fallbackLoop o (List.range 4) = (some title, List.range k ++ [k]) := by
    rw [hsplit]
    exact fallbackLoop_firstSuccess o _ _ k title
      (fun i hi => hfail i (by simpa using hi)) hk
  have hr : List.range k ++ [k] = List.range (k + 1) := by
    simpa using (List.range_succ (n := k)).symm
  rw [← hr]
  simp [downloadStage, hf, hsub, browsers_to_try, hloop]

/-- Temporary-directory block when the download section fails: the error
propagates, no transcoder call is made. -/
theorem tempdir_dlError (st en : ℚ) (o : Oracle) (e : PyErr) (att : List Attempt)
    (h : downloadStage o = (.error e, att)) :
    cut_video_tempdir st en o =
      { result := .error e, trace := { fetchAttempts := att, transcodeCalls := [] },
        scratch := o.listedFiles } := by
  simp [cut_video_tempdir, h]

/-- Temporary-directory block on the fully successful path. -/
theorem tempdir_success (st en : ℚ) (o : Oracle) (title : String) (att : List Attempt)
    (f : String) (rest : List String) (data : List ℕ)
    (hdl : downloadStage o = (.ok title, att))
    (hfiles : o.listedFiles.filter isVideoFile = f :: rest)
    (htc : o.transcodeOk = true)
    (hout : o.outputData = some data) :
    cut_video_tempdir st en o =
      { result := .ok
          { media_type := "video/mp4",
            contentDisposition := "attachment; filename=" ++ mkFilename title st en,
            data := data },
        trace :=
          { fetchAttempts := att,
            transcodeCalls :=
              [{ input := f, ss := st, t := en - st, output := "cut_" ++ title ++ ".mp4",
                  vcodec := "libx264", acodec := "aac" }] },
        scratch := o.listedFiles ++ ["cut_" ++ title ++ ".mp4"] } := by
  simp [cut_video_tempdir, hdl, hfiles, htc, hout]

/-- Temporary-directory block when the transcoder reports failure. -/
theorem tempdir_transcodeFail (st en : ℚ) (o : Oracle) (title : String) (att : List Attempt)
    (f : String) (rest : List String)
    (hdl : downloadStage o = (.ok title, att))
    (hfiles : o.listedFiles.filter isVideoFile = f :: rest)
    (htc : o.transcodeOk = false) :
    cut_video_tempdir st en o =
      { result := .error (.ffmpegError "ffmpeg error (see stderr output for detail)"),
        trace :=
          { fetchAttempts := att,
            transcodeCalls :=
              [{ input := f, ss := st, t := en - st, output := "cut_" ++ title ++ ".mp4",
                  vcodec := "libx264", acodec := "aac" }] },
        scratch := o.listedFiles } := by
  simp [cut_video_tempdir, hdl, hfiles, htc]

/-- Temporary-directory block when the transcoder exits cleanly but produced
no output file to read. -/
theorem tempdir_noOutput (st en : ℚ) (o : Oracle) (title : String) (att : List Attempt)
    (f : String) (rest : List String)
    (hdl : downloadStage o = (.ok title, att))
    (hfiles : o.listedFiles.filter isVideoFile = f :: rest)
    (htc : o.transcodeOk = true)
    (hout : o.outputData = none) :
    cut_video_tempdir st en o =
      { result := .error (.osError ("No such file or directory: " ++ ("cut_" ++ title ++ ".mp4"))),
        trace :=
          { fetchAttempts := att,
            transcodeCalls :=
              [{ input := f, ss := st, t := en - st, output := "cut_" ++ title ++ ".mp4",
                  vcodec := "libx264", acodec := "aac" }] },
        scratch := o.listedFiles } := by
  simp [cut_video_tempdir, hdl, hfiles, htc, hout]

/-- The outer wrapper changes only the result, never the trace. -/
theorem cut_video_trace (req : VideoRequest) (o : Oracle) :
    (cut_video req o).trace = (cut_video_core req o).trace := by
  unfold cut_video
  rcases h : (cut_video_core req o).result with e | resp <;> simp [h]

/-- The outer wrapper changes only the result, never the scratch files. -/
theorem cut_video_scratch (req : VideoRequest) (o : Oracle) :
    (cut_video req o).scratch = (cut_video_core req o).scratch := by
  unfold cut_video
  rcases h : (cut_video_core req o).result with e | resp <;> simp [h]

/-- A failing body never turns into a successful payload. -/
theorem cut_video_err_of_core (req : VideoRequest) (o : Oracle) (e : PyErr)
    (h : (cut_video_core req o).result = .error e) :
    ∀ resp, (cut_video req o).result ≠ .ok resp := by
  intro resp hcontra
  rw [cut_video_wrapErr req o e h] at hcontra
  simp at hcontra

/-- Whatever happens after the download section, the fetch attempts of the
run are exactly those of the download section. -/
theorem tempdir_fetchAttempts (st en : ℚ) (o : Oracle) :
    (cut_video_tempdir st en o).trace.fetchAttempts = (downloadStage o).2 := by
  rcases h : downloadStage o with ⟨res, att⟩
  rcases res with e | title
  · simp [cut_video_tempdir, h]
  · rcases hf : o.listedFiles.filter isVideoFile with _ | ⟨f, rest⟩ <;>
      rcases htc : o.transcodeOk <;> rcases hout : o.outputData with _ | data <;>
        simp [cut_video_tempdir, h, hf, htc, hout]

/-- The fallback loop always begins with the first attempt of its list. -/
theorem fallbackLoop_head (o : Oracle) (i : ℕ) (rest : List ℕ) :
    ∃ tl, (fallbackLoop o (i :: rest)).2 = i :: tl := by
  unfold fallbackLoop
  rcases o.fallback i <;> simp

/-- Shape of the download-section attempt list when the fallbacks run. -/
theorem downloadStage_fallback_attempts (o : Oracle) (msg : String)
    (hf : o.first = .downloadErr msg)
    (hsub : (containsSub msg "Sign in to confirm" || containsSub msg "bot") = true) :
    (downloadStage o).2 = .initial :: (fallbackLoop o (List.range 4)).2.map .fb := by
  unfold downloadStage
  rw [hf]
  rcases h : fallbackLoop o (List.range 4) with ⟨res, tried⟩
  have h4 : List.range browsers_to_try.length = List.range 4 := by decide
  rcases res with _ | t <;> simp [hsub, h4, h]

/-- Every member of `l.dropWhile p` is a member of `l`. -/
theorem mem_of_mem_dropWhile {α : Type} {p : α → Bool} {l : List α} {c : α}
    (h : c ∈ l.dropWhile p) : c ∈ l := by
  induction l with
  | nil => simp at h
  | cons a rest ih =>
      by_cases hp : p a = true
      · simp [List.dropWhile, hp] at h
        exact List.mem_cons_of_mem a (ih h)
      · simp [List.dropWhile, hp] at h
        simpa using h

/-- Every character surviving the sanitizer of line 155 is an allowed one:
alphanumeric, space, hyphen or underscore. -/
theorem sanitize_title_chars (t : String) :
    ∀ c ∈ (sanitize_title t).data, keepChar c = true := by
  intro c hc
  have hc' : c ∈ ((t.data.filter keepChar).reverse.dropWhile
      (fun c => c.isWhitespace)).reverse.take 50 := hc
  have h1 := List.take_subset 50 _ hc'
  have h2 := mem_of_mem_dropWhile (List.mem_reverse.mp h1)
  exact (List.mem_filter.mp (List.mem_reverse.mp h2)).2

/-- The sanitized title has at most 50 characters. -/
theorem sanitize_title_len (t : String) : (sanitize_title t).length ≤ 50 := by
  have h : (sanitize_title t).length = (((t.data.filter keepChar).reverse.dropWhile
      (fun c => c.isWhitespace)).reverse.take 50).length := rfl
  rw [h, List.length_take]
  omega

/-! ## Claim C2: start ≥ end is rejected before any work -/

/-- C2 (code bug): a parsed pair with start ≥ end is rejected before any
fetch or transcode call by the handler's own `HTTPException(400, ...)`
(the InvalidRequest of the claim) — but that exception is then caught by the
outer `except Exception` clause and rewrapped, so the surfaced response has
status 500, not the claimed 400. -/
theorem spec_c2_bug (req : VideoRequest) (o : Oracle) (st en : ℚ)
    (h2 : req.timeCode.length = 2)
    (hst : time_to_seconds (req.timeCode.headD "") = some st)
    (hen : time_to_seconds (req.timeCode.getD 1 "") = some en)
    (hge : en ≤ st) :
    (cut_video_core req o).result =
        .error (.httpExc 400 "Le timestamp de début doit être inférieur au timestamp de fin") ∧
    (cut_video req o).result =
        .error (.httpExc 500 ("Erreur lors du traitement: " ++
          pyStr (.httpExc 400 "Le timestamp de début doit être inférieur au timestamp de fin"))) ∧
    (cut_video req o).trace.fetchAttempts = [] ∧
    (cut_video req o).trace.transcodeCalls = [] := by
  have hc := cut_video_core_ge req o st en h2 hst hen hge
  have h1 : (cut_video_core req o).result =
      .error (.httpExc 400 "Le timestamp de début doit être inférieur au timestamp de fin") := by
    rw [hc]
  have hw := cut_video_wrapErr req o _ h1
  refine ⟨h1, ?_, ?_, ?_⟩ <;> rw [hw] <;> simp [hc, emptyTrace]

/-- Witness for C2's divergence at `start = 20 > end = 10`: the surfaced
result is the rewrapped 500 error. -/
theorem spec_c2_witness :
    (cut_video { youtube_url := "https://youtu.be/w", timeCode := ["00:00:20", "00:00:10"] }
        { first := .ok "v", fallback := fun _ => none, listedFiles := [],
          transcodeOk := true, outputData := none }).result =
      .error (.httpExc 500 ("Erreur lors du traitement: " ++
        pyStr (.httpExc 400 "Le timestamp de début doit être inférieur au timestamp de fin"))) :=
  (spec_c2_bug { youtube_url := "https://youtu.be/w", timeCode := ["00:00:20", "00:00:10"] }
    { first := .ok "v", fallback := fun _ => none, listedFiles := [],
      transcodeOk := true, outputData := none }
    20 10 (by decide) (by exact tsEval20) (by exact tsEval10) (by norm_num)).2.1

/-! ## Claim C8: no scratch files survive the request -/

/-- C8: whatever the oracle makes the external collaborators do, the scratch
directory of a request holds nothing once the handler returns — the
`TemporaryDirectory` context manager removes it on the success path and on
every failure path alike. -/
theorem spec_c8 (req : VideoRequest) (o : Oracle) : (cut_video req o).scratch = [] := by
  rw [cut_video_scratch]
  unfold cut_video_core
  split
  · rfl
  · split
    · rfl
    · split
      · rfl
      · split
        · rfl
        · rfl

/-! ## Claim C9: every error surfaces as HTTP 500 -/

/-- C9: the outer `except Exception` clause catches every exception raised in
the handler body — its own 400 `HTTPException`s included — and rewraps it as
a status-500 `HTTPException`, so an error response from the handler always
carries status 500 and never 400. -/
theorem spec_c9 (req : VideoRequest) (o : Oracle) :
    (∀ e, (cut_video_core req o).result = .error e →
      (cut_video req o).result =
        .error (.httpExc 500 ("Erreur lors du traitement: " ++ pyStr e))) ∧
    (∀ s d, (cut_video req o).result = .error (.httpExc s d) → s = 500) := by
  constructor
  · intro e he
    rw [cut_video_wrapErr req o e he]
  · intro s d h
    rcases hc : (cut_video_core req o).result with e | resp
    · rw [cut_video_wrapErr req o e hc] at h
      simp only [Except.error.injEq, PyErr.httpExc.injEq] at h
      omega
    · rw [cut_video_wrapOk req o resp hc, hc] at h
      simp at h

/-- Witness for C9: a one-element `timeCode` raises the handler's own 400
`HTTPException`, and the surfaced result carries status 500. -/
theorem spec_c9_witness :
    (cut_video { youtube_url := "u", timeCode := ["0"] }
        { first := .ok "v", fallback := fun _ => none, listedFiles := [],
          transcodeOk := true, outputData := none }).result =
      .error (.httpExc 500 ("Erreur lors du traitement: " ++
        pyStr (.httpExc 400 "timeCode doit contenir exactement 2 timestamps [start, end]"))) :=
  (spec_c9 _ _).1 _ rfl

/-! ## Claim C4: fallback order, first success, exhaustion -/

/-- C4: when the cookie fallbacks run, the attempts are tried strictly in
the fixed configured order (`firefox`, `edge`, `safari`, no cookies, after
the initial Chrome attempt), stopping at the first that succeeds; if every
configured attempt fails, the request ends in the source-unavailable error
of line 140 and never returns a payload. -/
theorem spec_c4 (req : VideoRequest) (o : Oracle) (st en : ℚ) (msg : String)
    (h2 : req.timeCode.length = 2)
    (hst : time_to_seconds (req.timeCode.headD "") = some st)
    (hen : time_to_seconds (req.timeCode.getD 1 "") = some en)
    (hlt : st < en)
    (hf : o.first = .downloadErr msg)
    (hsub : (containsSub msg "Sign in to confirm" || containsSub msg "bot") = true) :
    ((∀ i, i < 4 → o.fallback i = none) →
      (cut_video_core req o).result =
          .error (.httpExc 400 ("Cette vidéo nécessite une authentification ou " ++
            "n\x27est pas accessible. Essayez avec une autre vidéo publique.")) ∧
      (∀ resp, (cut_video req o).result ≠ .ok resp) ∧
      (cut_video req o).trace.fetchAttempts = [.initial, .fb 0, .fb 1, .fb 2, .fb 3]) ∧
    (∀ k title, k < 4 → o.fallback k = some title → (∀ i, i < k → o.fallback i = none) →
      (cut_video req o).trace.fetchAttempts = .initial :: (List.range (k + 1)).map .fb) := by
  have hcore := cut_video_core_valid req o st en h2 hst hen hlt
  have hattr : (cut_video req o).trace.fetchAttempts = (downloadStage o).2 := by
    rw [cut_video_trace, hcore]
    exact tempdir_fetchAttempts st en o
  constructor
  · intro hall
    have hdl := downloadStage_allFail o msg hf hsub hall
    have htd := tempdir_dlError st en o _ _ hdl
    have h1 : (cut_video_core req o).result =
        .error (.httpExc 400 ("Cette vidéo nécessite une authentification ou " ++
          "n\x27est pas accessible. Essayez avec une autre vidéo publique.")) := by
      rw [hcore]
      show (cut_video_tempdir st en o).result = _
      rw [htd]
    refine ⟨h1, cut_video_err_of_core req o _ h1, ?_⟩
    rw [hattr, hdl]
  · intro k title hk4 hk hfail
    have hdl := downloadStage_firstSuccess o msg k title hf hsub hk4 hk hfail
    rw [hattr, hdl]

/-- Witness for C4: with first error `"bot"`, an all-failing oracle makes
all five attempts, and an oracle succeeding at index 1 stops there. -/
theorem spec_c4_witness :
    ((cut_video { youtube_url := "u", timeCode := ["00:00:10", "00:00:20"] }
        { first := .downloadErr "bot", fallback := fun _ => none, listedFiles := [],
          transcodeOk := true, outputData := none }).trace.fetchAttempts =
      [.initial, .fb 0, .fb 1, .fb 2, .fb 3]) ∧
    ((cut_video { youtube_url := "u", timeCode := ["00:00:10", "00:00:20"] }
        { first := .downloadErr "bot", fallback := fun i => if i = 1 then some "t" else none,
          listedFiles := [], transcodeOk := true, outputData := none }).trace.fetchAttempts =
      .initial :: (List.range 2).map .fb) := by
  constructor
  · exact ((spec_c4 _ _ 10 20 "bot" (by decide) (by exact tsEval10) (by exact tsEval20)
      (by norm_num) rfl (by decide)).1 (fun i _ => rfl)).2.2
  · exact (spec_c4 _ _ 10 20 "bot" (by decide) (by exact tsEval10) (by exact tsEval20)
      (by norm_num) rfl (by decide)).2 1 "t" (by norm_num) rfl
      (fun i hi => by interval_cases i; rfl)

/-! ## Claim C5: transcoder offsets -/

/-- C5: once validation passes and a downloaded file is found, the external
transcoder is invoked exactly once, with start offset `ss` equal to the
parsed start and duration `t` equal to end minus start, targeting the fixed
`libx264`/`aac` codec pair. -/
theorem spec_c5 (req : VideoRequest) (o : Oracle) (st en : ℚ) (title : String)
    (att : List Attempt) (f : String) (rest : List String)
    (h2 : req.timeCode.length = 2)
    (hst : time_to_seconds (req.timeCode.headD "") = some st)
    (hen : time_to_seconds (req.timeCode.getD 1 "") = some en)
    (hlt : st < en)
    (hdl : downloadStage o = (.ok title, att))
    (hfiles : o.listedFiles.filter isVideoFile = f :: rest) :
    (cut_video req o).trace.transcodeCalls =
      [{ input := f, ss := st, t := en - st, output := "cut_" ++ title ++ ".mp4",
          vcodec := "libx264", acodec := "aac" }] := by
  have hcore := cut_video_core_valid req o st en h2 hst hen hlt
  rw [cut_video_trace, hcore]
  show (cut_video_tempdir st en o).trace.transcodeCalls = _
  rcases htc : o.transcodeOk
  · rw [tempdir_transcodeFail st en o title att f rest hdl hfiles htc]
  · rcases hout : o.outputData with _ | data
    · rw [tempdir_noOutput st en o title att f rest hdl hfiles htc hout]
    · rw [tempdir_success st en o title att f rest data hdl hfiles htc hout]

/-- Witness for C5 at a concrete request and oracle. -/
theorem spec_c5_witness :
    (cut_video { youtube_url := "u", timeCode := ["00:00:10", "00:00:20"] }
        { first := .ok "v", fallback := fun _ => none, listedFiles := ["v.mp4"],
          transcodeOk := true, outputData := some [1, 2, 3] }).trace.transcodeCalls =
      [{ input := "v.mp4", ss := 10, t := 20 - 10, output := "cut_" ++ "v" ++ ".mp4",
          vcodec := "libx264", acodec := "aac" }] :=
  spec_c5 _ _ 10 20 "v" [.initial] "v.mp4" [] (by decide) (by exact tsEval10)
    (by exact tsEval20) (by norm_num) rfl (by decide)

/-! ## Claim C6: transcode failure yields an error, not a payload -/

/-- C6: if the transcoder reports failure, or exits cleanly but leaves no
output file to read, the request fails — with the `ffmpeg.Error` or the
missing-file `OSError` (the claim's TranscodeError) — and no video payload
is returned. -/
theorem spec_c6 (req : VideoRequest) (o : Oracle) (st en : ℚ) (title : String)
    (att : List Attempt) (f : String) (rest : List String)
    (h2 : req.timeCode.length = 2)
    (hst : time_to_seconds (req.timeCode.headD "") = some st)
    (hen : time_to_seconds (req.timeCode.getD 1 "") = some en)
    (hlt : st < en)
    (hdl : downloadStage o = (.ok title, att))
    (hfiles : o.listedFiles.filter isVideoFile = f :: rest)
    (hfail : o.transcodeOk = false ∨ o.outputData = none) :
    (∃ m, (cut_video_core req o).result = .error (.ffmpegError m) ∨
      (cut_video_core req o).result = .error (.osError m)) ∧
    ∀ resp, (cut_video req o).result ≠ .ok resp := by
  have hcore := cut_video_core_valid req o st en h2 hst hen hlt
  rcases htc : o.transcodeOk
  · have htd := tempdir_transcodeFail st en o title att f rest hdl hfiles htc
    have h1 : (cut_video_core req o).result =
        .error (.ffmpegError "ffmpeg error (see stderr output for detail)") := by
      rw [hcore]
      show (cut_video_tempdir st en o).result = _
      rw [htd]
    exact ⟨⟨_, Or.inl h1⟩, cut_video_err_of_core req o _ h1⟩
  · have hout : o.outputData = none := by
      rcases hfail with h | h
      · rw [htc] at h
        cases h
      · exact h
    have htd := tempdir_noOutput st en o title att f rest hdl hfiles htc hout
    have h1 : (cut_video_core req o).result =
        .error (.osError ("No such file or directory: " ++ ("cut_" ++ title ++ ".mp4"))) := by
      rw [hcore]
      show (cut_video_tempdir st en o).result = _
      rw [htd]
    exact ⟨⟨_, Or.inr h1⟩, cut_video_err_of_core req o _ h1⟩

/-- Witness for C6: a failing transcoder at a concrete request ends in a
transcode-stage error. -/
theorem spec_c6_witness :
    ∃ m, (cut_video_core { youtube_url := "u", timeCode := ["00:00:10", "00:00:20"] }
        { first := .ok "v", fallback := fun _ => none, listedFiles := ["v.mp4"],
          transcodeOk := false, outputData := none }).result = .error (.ffmpegError m) ∨
      (cut_video_core { youtube_url := "u", timeCode := ["00:00:10", "00:00:20"] }
        { first := .ok "v", fallback := fun _ => none, listedFiles := ["v.mp4"],
          transcodeOk := false, outputData := none }).result = .error (.osError m) :=
  (spec_c6 _ _ 10 20 "v" [.initial] "v.mp4" [] (by decide) (by exact tsEval10)
    (by exact tsEval20) (by norm_num) (by rfl) (by decide) (Or.inl rfl)).1

/-! ## Claim C7: response filename from the sanitized title -/

/-- C7: a successful request returns the payload with a
`Content-Disposition` filename built from the sanitized source title — every
kept character is alphanumeric, a space, a hyphen or an underscore, at most
50 characters survive — combined with the parsed start and end seconds. -/
theorem spec_c7 (req : VideoRequest) (o : Oracle) (st en : ℚ) (title : String)
    (att : List Attempt) (f : String) (rest : List String) (data : List ℕ)
    (h2 : req.timeCode.length = 2)
    (hst : time_to_seconds (req.timeCode.headD "") = some st)
    (hen : time_to_seconds (req.timeCode.getD 1 "") = some en)
    (hlt : st < en)
    (hdl : downloadStage o = (.ok title, att))
    (hfiles : o.listedFiles.filter isVideoFile = f :: rest)
    (htc : o.transcodeOk = true)
    (hout : o.outputData = some data) :
    (cut_video req o).result = .ok
      { media_type := "video/mp4",
        contentDisposition := "attachment; filename=" ++ mkFilename title st en,
        data := data } ∧
    mkFilename title st en = "cut_" ++ sanitize_title title ++ "_" ++ pyFloatRepr st ++
      "s-" ++ pyFloatRepr en ++ "s.mp4" ∧
    (∀ c ∈ (sanitize_title title).data, keepChar c = true) ∧
    (sanitize_title title).length ≤ 50 := by
  have hcore := cut_video_core_valid req o st en h2 hst hen hlt
  have htd := tempdir_success st en o title att f rest data hdl hfiles htc hout
  have h1 : (cut_video_core req o).result = .ok
      { media_type := "video/mp4",
        contentDisposition := "attachment; filename=" ++ mkFilename title st en,
        data := data } := by
    rw [hcore]
    show (cut_video_tempdir st en o).result = _
    rw [htd]
  refine ⟨?_, rfl, sanitize_title_chars title, sanitize_title_len title⟩
  rw [cut_video_wrapOk req o _ h1, h1]

/-- Witness for C7 at a title with forbidden characters. -/
theorem spec_c7_witness :
    (cut_video { youtube_url := "u", timeCode := ["00:00:10", "00:00:20"] }
        { first := .ok "My/Video", fallback := fun _ => none, listedFiles := ["v.mp4"],
          transcodeOk := true, outputData := some [9] }).result = .ok
      { media_type := "video/mp4",
        contentDisposition := "attachment; filename=" ++ mkFilename "My/Video" 10 20,
        data := [9] } :=
  (spec_c7 _ _ 10 20 "My/Video" [.initial] "v.mp4" [] [9] (by decide) (by exact tsEval10)
    (by exact tsEval20) (by norm_num) (by rfl) (by decide) (by rfl) (by rfl)).1

/-! ## Claim C10: fallbacks gated on the error message -/

/-- C10: after a first-attempt `DownloadError`, the browser-cookie fallback
sequence runs only when the message contains `"Sign in to confirm"` or
`"bot"`; any other download error ends the request at once, with the single
initial fetch attempt and no transcoder call. -/
theorem spec_c10 (req : VideoRequest) (o : Oracle) (st en : ℚ) (msg : String)
    (h2 : req.timeCode.length = 2)
    (hst : time_to_seconds (req.timeCode.headD "") = some st)
    (hen : time_to_seconds (req.timeCode.getD 1 "") = some en)
    (hlt : st < en)
    (hf : o.first = .downloadErr msg) :
    ((containsSub msg "Sign in to confirm" = false ∧ containsSub msg "bot" = false) →
      (cut_video_core req o).result =
          .error (.httpExc 400 ("Erreur de téléchargement YouTube: " ++ msg)) ∧
      (cut_video req o).trace.fetchAttempts = [.initial] ∧
      (cut_video req o).trace.transcodeCalls = []) ∧
    ((containsSub msg "Sign in to confirm" || containsSub msg "bot") = true →
      ∃ tl, (cut_video req o).trace.fetchAttempts = .initial :: .fb 0 :: tl) := by
  have hcore := cut_video_core_valid req o st en h2 hst hen hlt
  have hattr : (cut_video req o).trace.fetchAttempts = (downloadStage o).2 := by
    rw [cut_video_trace, hcore]
    exact tempdir_fetchAttempts st en o
  constructor
  · rintro ⟨hs1, hs2⟩
    have hdl := downloadStage_noFallback o msg hf hs1 hs2
    have htd := tempdir_dlError st en o _ _ hdl
    refine ⟨?_, ?_, ?_⟩
    · rw [hcore]
      show (cut_video_tempdir st en o).result = _
      rw [htd]
    · rw [hattr, hdl]
    · rw [cut_video_trace, hcore]
      show (cut_video_tempdir st en o).trace.transcodeCalls = _
      rw [htd]
  · intro hsub
    have hsh := downloadStage_fallback_attempts o msg hf hsub
    have hrange : List.range 4 = 0 :: [1, 2, 3] := by decide
    obtain ⟨tl, htl⟩ := fallbackLoop_head o 0 [1, 2, 3]
    refine ⟨tl.map .fb, ?_⟩
    rw [hattr, hsh, hrange, htl]
    simp

/-- Witness for C10: a 403 message triggers no fallback attempt, while a
bot-detection message reaches the firefox attempt. -/
theorem spec_c10_witness :
    ((cut_video { youtube_url := "u", timeCode := ["00:00:10", "00:00:20"] }
        { first := .downloadErr "HTTP Error 403: Forbidden", fallback := fun _ => none,
          listedFiles := [], transcodeOk := true, outputData := none }).trace.fetchAttempts =
      [.initial]) ∧
    (∃ tl, (cut_video { youtube_url := "u", timeCode := ["00:00:10", "00:00:20"] }
        { first := .downloadErr "Sign in to confirm you are not a bot",
          fallback := fun _ => none, listedFiles := [], transcodeOk := true,
          outputData := none }).trace.fetchAttempts = .initial :: .fb 0 :: tl) := by
  constructor
  · exact ((spec_c10 _ _ 10 20 "HTTP Error 403: Forbidden" (by decide) (by exact tsEval10)
      (by exact tsEval20) (by norm_num) rfl).1 ⟨by decide, by decide⟩).2.1
  · exact (spec_c10 _ _ 10 20 "Sign in to confirm you are not a bot" (by decide)
      (by exact tsEval10) (by exact tsEval20) (by norm_num) rfl).2 (by decide)

end VideoCutter

